import Mathlib

/-!
Verification development for the scheduled report delivery engine of the
tableau-data-reporter repository (src/report_manager.py and the scheduling
page of src/tableau_streamlit_app.py).

The Python code is embedded shallowly: the schedules.json registry and the
in-process APScheduler job table are association lists with Python-dict
update semantics, ReportManager methods become pure state-passing functions,
and the SMTP transport is an oracle mapping a recipient to an optional
exception message.
-/

deriving instance DecidableEq for Except

namespace TableauReporter

/-! ## Dictionary model

Python dicts (the parsed schedules.json mapping and the job table of the
APScheduler instance) are modelled as association lists with unique keys.
Assignment d[k] = v replaces the value in place when the key is present
and appends otherwise; del d[k] removes the entry. -/

/-- Keys of the mapping, in order. -/
def dictKeys {α : Type} (m : List (String × α)) : List String :=
  m.map Prod.fst

/-- Membership test, mirroring the Python expression k in d. -/
def dictMem {α : Type} (m : List (String × α)) (k : String) : Bool :=
  decide (k ∈ dictKeys m)

/-- Lookup, mirroring d[k] / d.get(k). -/
def dictLookup {α : Type} : List (String × α) → String → Option α
  | [], _ => none
  | (k', v) :: rest, k => if k' = k then some v else dictLookup rest k

/-- Assignment d[k] = v on a unique-key mapping: replace in place when
present, append otherwise. -/
def dictInsert {α : Type} : List (String × α) → String → α → List (String × α)
  | [], k, v => [(k, v)]
  | (k', v') :: rest, k, v =>
    if k' = k then (k, v) :: rest else (k', v') :: dictInsert rest k v

/-- Deletion del d[k]. -/
def dictRemove {α : Type} (m : List (String × α)) (k : String) : List (String × α) :=
  m.filter (fun p => decide (p.1 ≠ k))

theorem dictLookup_dictInsert_self {α : Type} (m : List (String × α)) (k : String) (v : α) :
    dictLookup (dictInsert m k v) k = some v := by
  induction m with
  | nil => simp [dictInsert, dictLookup]
  | cons hd tl ih =>
    by_cases h : hd.1 = k
    · simp [dictInsert, dictLookup, h]
    · simp [dictInsert, dictLookup, h, ih]

theorem dictLookup_dictInsert_ne {α : Type} (m : List (String × α)) (k : String) (v : α)
    (k' : String) (h : k' ≠ k) :
    dictLookup (dictInsert m k v) k' = dictLookup m k' := by
  have hne : ¬ (k = k') := fun e => h e.symm
  induction m with
  | nil => simp [dictInsert, dictLookup, hne]
  | cons hd tl ih =>
    by_cases hh : hd.1 = k
    · simp [dictInsert, dictLookup, hh, hne]
    · by_cases hk' : hd.1 = k'
      · simp [dictInsert, dictLookup, hh, hk', h]
      · simp [dictInsert, dictLookup, hh, hk', ih]

theorem dictRemove_dictInsert {α : Type} (m : List (String × α)) (k : String) (v : α) :
    dictRemove (dictInsert m k v) k = dictRemove m k := by
  induction m with
  | nil => simp [dictInsert, dictRemove]
  | cons hd tl ih =>
    by_cases h : hd.1 = k
    · simp [dictInsert, dictRemove, h, List.filter_cons]
    · simp [dictInsert, dictRemove, h, List.filter_cons] at ih ⊢
      exact ih

theorem dictMem_eq_isSome {α : Type} (m : List (String × α)) (k : String) :
    dictMem m k = (dictLookup m k).isSome := by
  induction m with
  | nil => simp [dictMem, dictKeys, dictLookup]
  | cons hd tl ih =>
    by_cases h : hd.1 = k
    · simp [dictMem, dictKeys, dictLookup, h]
    · have hb : ¬ (k = hd.1) := fun e => h e.symm
      have hbeq : (k == hd.1) = false := beq_eq_false_iff_ne.mpr hb
      have ih' := ih
      simp [dictMem, dictKeys, dictLookup, h, hb, hbeq] at ih' ⊢
      exact ih'

theorem dictLookup_dictRemove_self {α : Type} (m : List (String × α)) (k : String) :
    dictLookup (dictRemove m k) k = none := by
  induction m with
  | nil => simp [dictRemove, dictLookup]
  | cons hd tl ih =>
    by_cases h : hd.1 = k
    · simpa [dictRemove, List.filter, h] using ih
    · simpa [dictRemove, List.filter, h, dictLookup] using ih

/-! ## Data model

EmailConfig mirrors the email_config dict built in show_schedule_page and
consumed by ReportManager.schedule_report; every field is optional because
schedule_report checks presence explicitly. ScheduleConfig mirrors the
schedule_config dict (type plus the fields read with .get and a default). -/

structure EmailConfig where
  smtp_server : Option String
  smtp_port : Option Nat
  sender_email : Option String
  sender_password : Option String
  recipients : Option (List String)
  format : Option String
deriving Repr, DecidableEq

structure ScheduleConfig where
  type : Option String
  day : Option Nat
  hour : Option Nat
  minute : Option Nat
deriving Repr, DecidableEq

/-- Value stored in the APScheduler job table by scheduler.add_job. -/
inductive Trigger where
  | daily (hour minute : Nat)
  | weekly (day hour minute : Nat)
  | monthly (day hour minute : Nat)
deriving Repr, DecidableEq

/-- Entry written to schedules.json by ReportManager.save_schedule. -/
structure ScheduleData where
  job_id : String
  dataset_name : String
  email_config : EmailConfig
  schedule_config : ScheduleConfig
deriving Repr, DecidableEq

/-- State of one ReportManager process: the in-memory APScheduler job table
(armed) and the durable schedules.json mapping (registry). -/
structure ManagerState where
  armed : List (String × Trigger)
  registry : List (String × ScheduleData)
deriving Repr, DecidableEq

/-! ## ReportManager operations -/

/-- Presence check of the six required_email_fields in schedule_report. -/
def hasRequiredEmailFields (c : EmailConfig) : Bool :=
  c.smtp_server.isSome && c.smtp_port.isSome && c.sender_email.isSome &&
    c.sender_password.isSome && c.recipients.isSome && c.format.isSome

/-- Job id string built in schedule_report from the dataset name and
datetime.now() rendered at one-second resolution (format %Y%m%d%H%M%S). -/
def jobId (dataset_name : String) (now : String) : String :=
  "report_" ++ dataset_name ++ "_" ++ now

/-- Trigger construction of schedule_report, including the range validation
CronTrigger performs on its fields (out-of-range values raise ValueError).
Field defaults follow the .get calls in the source: hour 0, minute 0,
day_of_week 0, day-of-month 1. Only reached for a validated type. -/
def mkCronTrigger (sc : ScheduleConfig) : Except String Trigger :=
  if sc.type = some "daily" then
    let h := sc.hour.getD 0
    let mi := sc.minute.getD 0
    if h ≤ 23 ∧ mi ≤ 59 then .ok (.daily h mi) else .error "ValueError"
  else if sc.type = some "weekly" then
    let d := sc.day.getD 0
    let h := sc.hour.getD 0
    let mi := sc.minute.getD 0
    if d ≤ 6 ∧ h ≤ 23 ∧ mi ≤ 59 then .ok (.weekly d h mi) else .error "ValueError"
  else
    let d := sc.day.getD 1
    let h := sc.hour.getD 0
    let mi := sc.minute.getD 0
    if 1 ≤ d ∧ d ≤ 31 ∧ h ≤ 23 ∧ mi ≤ 59 then .ok (.monthly d h mi)
    else .error "ValueError"

/-- Persistence step save_schedule: read schedules.json, assign the entry
under job_id, rewrite the whole file. The registry argument and result are
the parsed content of schedules.json. -/
def save_schedule (registry : List (String × ScheduleData))
    (jid dataset_name : String) (ec : EmailConfig) (sc : ScheduleConfig) :
    List (String × ScheduleData) :=
  dictInsert registry jid ⟨jid, dataset_name, ec, sc⟩

/-- ReportManager.schedule_report as a state transition. Validation happens
before the job id is generated and before any scheduler or file mutation;
on any raise the state is returned unchanged together with the error
message. On success the job is added to the APScheduler table
(replace_existing = True, hence dict-update semantics) and persisted. -/
def schedule_report (s : ManagerState) (dataset_name : String)
    (ec : EmailConfig) (sc : ScheduleConfig) (now : String) :
    ManagerState × Except String String :=
  if hasRequiredEmailFields ec = false then
    (s, .error "Missing required email configuration fields")
  else if ec.recipients.getD [] = [] then
    (s, .error "No recipients specified")
  else if sc.type = none then
    (s, .error "Schedule type not specified")
  else if sc.type ≠ some "daily" ∧ sc.type ≠ some "weekly" ∧ sc.type ≠ some "monthly" then
    (s, .error "Invalid schedule type")
  else
    let jid := jobId dataset_name now
    match mkCronTrigger sc with
    | .error e => (s, .error e)
    | .ok trig =>
      ({ armed := dictInsert s.armed jid trig,
         registry := save_schedule s.registry jid dataset_name ec sc }, .ok jid)

/-- ReportManager.load_schedules: reads schedules.json and returns its
content, touching no other state. -/
def load_schedules (s : ManagerState) : List (String × ScheduleData) :=
  s.registry

/-- ReportManager.get_active_schedules, a direct delegate to load_schedules. -/
def get_active_schedules (s : ManagerState) : List (String × ScheduleData) :=
  load_schedules s

/-- ReportManager.__init__ after a process restart: a fresh (empty)
BackgroundScheduler is started and load_schedules() is called, but its
return value is discarded, so nothing is re-registered with the scheduler.
The persisted argument is the schedules.json content found on disk. -/
def restart (persisted : List (String × ScheduleData)) : ManagerState :=
  { armed := [], registry := persisted }

/-- ReportManager.remove_schedule: scheduler.remove_job raises for an id
the live scheduler does not know (caught by the bare except, returning
False with nothing changed); otherwise the job leaves the scheduler, is
deleted from schedules.json when present there, and True is returned. -/
def remove_schedule (s : ManagerState) (jid : String) : ManagerState × Bool :=
  if dictMem s.armed jid then
    let registry' :=
      if dictMem s.registry jid then dictRemove s.registry jid else s.registry
    ({ armed := dictRemove s.armed jid, registry := registry' }, true)
  else
    (s, false)

/-! ## Execution and delivery (ReportManager.send_scheduled_report)

The SMTP transport is an oracle: for a recipient it returns none on a
successful send and some message when the send raises. The whole body of
send_scheduled_report sits in a single try, so the first raised exception
anywhere in the recipient loop jumps to the outer handler, which logs the
failure and returns; there is no per-recipient outcome structure in the
source. -/

/-- Result of one firing: which recipients had a send started, which sends
completed, whether the success line was printed, and the message logged by
the outer exception handler when one fired. -/
structure FiringResult where
  attempted : List String
  delivered : List String
  loggedSuccess : Bool
  errorLogged : Option String
deriving Repr, DecidableEq

/-- Format selection in send_scheduled_report: PDF exactly when the format
field equals the string PDF, CSV for every other value. -/
def renderFormat (ec : EmailConfig) : String :=
  if ec.format = some "PDF" then "pdf" else "csv"

/-- Recipient loop of send_scheduled_report under exception semantics:
stops at the first recipient whose send raises, carrying the exception
message out. Returns the attempted list, the delivered list and the
escaped exception, if any. -/
def deliverLoop (transport : String → Option String) :
    List String → List String × List String × Option String
  | [] => ([], [], none)
  | r :: rs =>
    match transport r with
    | some e => ([r], [], some e)
    | none =>
      let rec' := deliverLoop transport rs
      (r :: rec'.1, r :: rec'.2.1, rec'.2.2)

/-- ReportManager.send_scheduled_report: the dataset read, the rendering
(modelled as always succeeding once data is present) and the recipient
loop all share one try/except that logs and swallows the first exception. -/
def send_scheduled_report (datasetData : Option Unit)
    (transport : String → Option String) (ec : EmailConfig) : FiringResult :=
  match datasetData with
  | none =>
    { attempted := [], delivered := [], loggedSuccess := false,
      errorLogged := some "no such table" }
  | some _ =>
    let res := deliverLoop transport (ec.recipients.getD [])
    match res.2.2 with
    | some e =>
      { attempted := res.1, delivered := res.2.1, loggedSuccess := false,
        errorLogged := some e }
    | none =>
      { attempted := res.1, delivered := res.2.1, loggedSuccess := true,
        errorLogged := none }

/-! ## Trigger calculator for Monthly schedules

Modelled from the spec: the Monthly trigger-time computation is performed
by the external APScheduler CronTrigger object, not by code under src/;
the spec fixes the policy that a dayOfMonth exceeding the length of the
target month is clamped to the last valid day of that month (spec sections
3, 4.1 and 9). The model below follows those words. -/

structure DateTime where
  year : Nat
  month : Nat
  day : Nat
  hour : Nat
  minute : Nat
deriving Repr, DecidableEq

/-- Gregorian leap-year rule. -/
def isLeapYear (y : Nat) : Bool :=
  (y % 4 = 0 && y % 100 ≠ 0) || y % 400 = 0

/-- Length of a month in the Gregorian calendar. -/
def daysInMonth (y mo : Nat) : Nat :=
  if mo = 2 then (if isLeapYear y then 29 else 28)
  else if mo = 4 ∨ mo = 6 ∨ mo = 9 ∨ mo = 11 then 30 else 31

/-- Lexicographic order on wall-clock instants. -/
def dtLE (a b : DateTime) : Bool :=
  if a.year ≠ b.year then decide (a.year < b.year)
  else if a.month ≠ b.month then decide (a.month < b.month)
  else if a.day ≠ b.day then decide (a.day < b.day)
  else if a.hour ≠ b.hour then decide (a.hour < b.hour)
  else decide (a.minute ≤ b.minute)

/-- Modelled from the spec: the slot a Monthly schedule occupies in a given
month, with dayOfMonth clamped to the last valid day of that month. -/
def monthlySlot (d h mi : Nat) (y mo : Nat) : DateTime :=
  ⟨y, mo, min d (daysInMonth y mo), h, mi⟩

/-- Successor month, rolling over the year boundary. -/
def nextMonth (y mo : Nat) : Nat × Nat :=
  if mo = 12 then (y + 1, 1) else (y, mo + 1)

/-- Modelled from the spec: nextFireTime for a Monthly spec relative to an
instant. The current month is used when its slot has not passed (a boundary
instant fires, per the tie-break rule); otherwise the next month is used. -/
def nextFireMonthly (d h mi : Nat) (after : DateTime) : DateTime :=
  let slot := monthlySlot d h mi after.year after.month
  if dtLE after slot then slot
  else
    let nm := nextMonth after.year after.month
    monthlySlot d h mi nm.1 nm.2

/-! ## Concrete fixtures -/

/-- Fully populated email configuration with one recipient. -/
def ecValid : EmailConfig :=
  { smtp_server := some "smtp.gmail.com", smtp_port := some 587,
    sender_email := some "sender@example.com",
    sender_password := some "secretA",
    recipients := some ["r1@example.com"], format := some "CSV" }

/-- Daily schedule at 08:00, as built by show_schedule_page. -/
def scDaily : ScheduleConfig :=
  { type := some "daily", day := none, hour := some 8, minute := some 0 }

/-- One-time schedule dict exactly as built by show_schedule_page. -/
def scOneTime : ScheduleConfig :=
  { type := some "one-time", day := none, hour := none, minute := none }

/-- State of a freshly started process with no schedules.json on disk. -/
def emptyState : ManagerState := { armed := [], registry := [] }

/-- Email configuration with three recipients. -/
def ec3 : EmailConfig :=
  { ecValid with
    recipients := some ["r1@example.com", "r2@example.com", "r3@example.com"] }

/-- Transport oracle that raises exactly for the second recipient. -/
def transport3 : String → Option String :=
  fun r => if r = "r2@example.com" then some "SMTPException" else none

/-- Persisted entry for a daily sales report. -/
def data0 : ScheduleData :=
  ⟨"report_sales_20240101120000", "sales", ecValid, scDaily⟩

/-! ## Claims -/

theorem deliverLoop_first_failure (transport : String → Option String)
    (pre : List String) (r : String) (rest : List String) (e : String)
    (hpre : ∀ p ∈ pre, transport p = none) (hr : transport r = some e) :
    deliverLoop transport (pre ++ r :: rest) = (pre ++ [r], pre, some e) := by
  induction pre with
  | nil => simp [deliverLoop, hr]
  | cons p ps ih =>
    have hp : transport p = none := hpre p (by simp)
    have hps : ∀ q ∈ ps, transport q = none := fun q hq => hpre q (by simp [hq])
    simp [deliverLoop, hp, ih hps]

/-- C1: the claim states that a transport failure for one recipient does not
prevent attempts for later recipients and that a per-recipient outcome with
degraded status is produced. In the source the whole recipient loop runs
inside one try/except, so the firing with recipients r1, r2, r3 where the
send to r2 raises never attempts r3, and no per-recipient outcome exists:
the claim is false on the code. -/
theorem c1_counterexample :
    (send_scheduled_report (some ()) transport3 ec3).attempted =
        ["r1@example.com", "r2@example.com"] ∧
    "r3@example.com" ∉ (send_scheduled_report (some ()) transport3 ec3).attempted ∧
    (send_scheduled_report (some ()) transport3 ec3).delivered = ["r1@example.com"] ∧
    (send_scheduled_report (some ()) transport3 ec3).loggedSuccess = false ∧
    (send_scheduled_report (some ()) transport3 ec3).errorLogged =
        some "SMTPException" := by
  decide

/-- C1 (amended): when rendering succeeded and the transport raises for
recipient r after succeeding for every recipient before it, the loop stops
at r: recipients after r are never attempted, the exception is swallowed by
the outer handler (its message is logged, the success line is not), and the
recipients before r are the only deliveries. -/
theorem c1_amended (transport : String → Option String) (ec : EmailConfig)
    (pre : List String) (r : String) (rest : List String) (e : String)
    (hrec : ec.recipients = some (pre ++ r :: rest))
    (hpre : ∀ p ∈ pre, transport p = none)
    (hr : transport r = some e) :
    (send_scheduled_report (some ()) transport ec).attempted = pre ++ [r] ∧
    (send_scheduled_report (some ()) transport ec).delivered = pre ∧
    (send_scheduled_report (some ()) transport ec).loggedSuccess = false ∧
    (send_scheduled_report (some ()) transport ec).errorLogged = some e := by
  have hloop := deliverLoop_first_failure transport pre r rest e hpre hr
  simp [send_scheduled_report, hrec, hloop]

/-- C1 witness: the amended statement evaluated on three concrete
recipients whose second send raises. -/
theorem c1_witness :
    (send_scheduled_report (some ()) transport3 ec3).attempted =
        ["r1@example.com"] ++ ["r2@example.com"] ∧
    (send_scheduled_report (some ()) transport3 ec3).delivered = ["r1@example.com"] ∧
    (send_scheduled_report (some ()) transport3 ec3).loggedSuccess = false ∧
    (send_scheduled_report (some ()) transport3 ec3).errorLogged =
        some "SMTPException" :=
  c1_amended transport3 ec3 ["r1@example.com"] "r2@example.com"
    ["r3@example.com"] "SMTPException" (by decide)
    (by intro p hp; simp at hp; subst hp; decide) (by decide)

/-- C2: the claim states that every job found in the durable registry at
process start is re-registered with the live scheduler. In the source,
ReportManager.__init__ starts an empty BackgroundScheduler and discards the
value returned by load_schedules, so after a restart with one persisted job
the durable registry still lists the job while the live job table is empty:
the claim is false on the code. -/
theorem c2_counterexample :
    dictLookup (restart [("report_sales_20240101120000", data0)]).registry
        "report_sales_20240101120000" = some data0 ∧
    (restart [("report_sales_20240101120000", data0)]).armed = [] ∧
    dictLookup (restart [("report_sales_20240101120000", data0)]).armed
        "report_sales_20240101120000" = none := by
  refine ⟨by decide, rfl, rfl⟩

/-- C2 (amended): after a successful scheduleReport, killing and restarting
the process still yields the job from listSchedules (the durable write
survives), but the job is not re-registered with the live scheduler: the
armed set after restart is empty. -/
theorem c2_amended (s : ManagerState) (ds : String) (ec : EmailConfig)
    (sc : ScheduleConfig) (now : String) (s' : ManagerState) (jid : String)
    (h : schedule_report s ds ec sc now = (s', .ok jid)) :
    dictLookup (restart s'.registry).registry jid = some ⟨jid, ds, ec, sc⟩ ∧
    (restart s'.registry).armed = [] := by
  unfold schedule_report at h
  split at h
  · simp at h
  · split at h
    · simp at h
    · split at h
      · simp at h
      · split at h
        · simp at h
        · split at h
          · simp at h
          · rename_i trig heq
            have h1 : ManagerState.mk
                (dictInsert s.armed (jobId ds now) trig)
                (save_schedule s.registry (jobId ds now) ds ec sc) = s' :=
              congrArg Prod.fst h
            have h2 : jobId ds now = jid := by
              have := congrArg Prod.snd h
              simpa using this
            constructor
            · rw [← h1, ← h2]
              exact dictLookup_dictInsert_self ..
            · rfl

/-- C2 witness: the amended statement evaluated on a concrete scheduling
call from the empty state. -/
theorem c2_witness :
    dictLookup
        (restart (schedule_report emptyState "sales" ecValid scDaily
            "20240101120000").1.registry).registry
        (jobId "sales" "20240101120000") =
      some ⟨jobId "sales" "20240101120000", "sales", ecValid, scDaily⟩ ∧
    (restart (schedule_report emptyState "sales" ecValid scDaily
        "20240101120000").1.registry).armed = [] :=
  c2_amended emptyState "sales" ecValid scDaily "20240101120000"
    (schedule_report emptyState "sales" ecValid scDaily "20240101120000").1
    (jobId "sales" "20240101120000") (by decide)

/-- C3: the claim states that scheduleReport with the OneTime variant
succeeds, fires once and is then removed. The scheduling page offers a
One-time frequency and builds the dict with type one-time, but
schedule_report only accepts daily, weekly and monthly, so every One-time
submission raises Invalid schedule type before any job is created: the
code contradicts its own front end. -/
theorem c3_one_time_rejected :
    (schedule_report emptyState "sales" ecValid scOneTime "20240101120000").1 =
        emptyState ∧
    (schedule_report emptyState "sales" ecValid scOneTime "20240101120000").2 =
        .error "Invalid schedule type" := by
  refine ⟨by decide, by decide⟩

/-- Email configuration whose format value names no supported format. -/
def ecBogus : EmailConfig := { ecValid with format := some "ODS" }

/-- C4: the claim states that a deliveryConfig whose format is outside the
two supported variants is rejected with no durable write. In the source the
format field is only checked for presence, never for its value, so a config
with format ODS is accepted, armed and durably written: the claim is false
on the code. -/
theorem c4_counterexample :
    (schedule_report emptyState "sales" ecBogus scDaily "20240101120000").2 =
      .ok (jobId "sales" "20240101120000") ∧
    dictLookup
        (schedule_report emptyState "sales" ecBogus scDaily "20240101120000").1.registry
        (jobId "sales" "20240101120000") =
      some ⟨jobId "sales" "20240101120000", "sales", ecBogus, scDaily⟩ := by
  refine ⟨by decide, by decide⟩

/-- C4 (amended): schedule_report validates only the presence of the format
field; whatever string it holds, a request that passes the presence,
recipient and schedule checks succeeds and is durably written, format
included (at firing time every value other than PDF is rendered as CSV). -/
theorem c4_amended (s : ManagerState) (ds : String) (ec : EmailConfig)
    (sc : ScheduleConfig) (now : String)
    (hreq : hasRequiredEmailFields ec = true)
    (hrec : ec.recipients.getD [] ≠ [])
    (htype : sc.type = some "daily")
    (hh : sc.hour.getD 0 ≤ 23) (hm : sc.minute.getD 0 ≤ 59) :
    (schedule_report s ds ec sc now).2 = .ok (jobId ds now) ∧
    dictLookup (schedule_report s ds ec sc now).1.registry (jobId ds now) =
      some ⟨jobId ds now, ds, ec, sc⟩ := by
  simp [schedule_report, mkCronTrigger, hreq, hrec, htype, hh, hm,
    save_schedule, dictLookup_dictInsert_self]

/-- C4 witness: the amended statement evaluated on the concrete ODS-format
configuration. -/
theorem c4_witness :
    (schedule_report emptyState "sales" ecBogus scDaily "20240102080000").2 =
      .ok (jobId "sales" "20240102080000") ∧
    dictLookup
        (schedule_report emptyState "sales" ecBogus scDaily "20240102080000").1.registry
        (jobId "sales" "20240102080000") =
      some ⟨jobId "sales" "20240102080000", "sales", ecBogus, scDaily⟩ :=
  c4_amended emptyState "sales" ecBogus scDaily "20240102080000"
    (by decide) (by decide) (by decide) (by decide) (by decide)

/-- C5: every invalid schedule request (a missing required transport field,
an empty recipient list, a missing schedule type or an unsupported one)
makes schedule_report raise synchronously, before the job id is generated
and before any scheduler or file mutation: the state is returned unchanged
together with a validation error. -/
theorem c5_validation_atomic (s : ManagerState) (ds : String)
    (ec : EmailConfig) (sc : ScheduleConfig) (now : String)
    (h : hasRequiredEmailFields ec = false ∨ ec.recipients.getD [] = [] ∨
         sc.type = none ∨
         (sc.type ≠ some "daily" ∧ sc.type ≠ some "weekly" ∧
          sc.type ≠ some "monthly")) :
    (schedule_report s ds ec sc now).1 = s ∧
    ∃ msg, (schedule_report s ds ec sc now).2 = .error msg := by
  by_cases h1 : hasRequiredEmailFields ec = false
  · simp [schedule_report, h1]
  · by_cases h2 : ec.recipients.getD [] = []
    · simp [schedule_report, h1, h2]
    · by_cases h3 : sc.type = none
      · simp [schedule_report, h1, h2, h3]
      · by_cases h4 : sc.type ≠ some "daily" ∧ sc.type ≠ some "weekly" ∧
            sc.type ≠ some "monthly"
        · simp [schedule_report, h1, h2, h3, h4]
        · rcases h with h | h | h | h
          · exact absurd h h1
          · exact absurd h h2
          · exact absurd h h3
          · exact absurd h h4

/-- C5 witness: a request missing the sender password is rejected with the
state unchanged. -/
theorem c5_witness :
    (schedule_report emptyState "sales"
        { ecValid with sender_password := none } scDaily "20240101120000").1 =
      emptyState ∧
    ∃ msg,
      (schedule_report emptyState "sales"
          { ecValid with sender_password := none } scDaily "20240101120000").2 =
        .error msg :=
  c5_validation_atomic emptyState "sales"
    { ecValid with sender_password := none } scDaily "20240101120000"
    (Or.inl (by decide))

/-- C6: in every state whose live job table only holds ids that are also in
the durable registry (the shape every reachable state has), remove_schedule
returns True exactly when the job existed and afterwards is gone from both
the live scheduler and the registry; for an id absent from both it returns
False with nothing changed and, the whole body being wrapped in a bare
except, never raises. -/
theorem c6_cancel_schedule (s : ManagerState) (jid : String)
    (hinv : ∀ k, dictMem s.armed k = true → dictMem s.registry k = true) :
    ((remove_schedule s jid).2 = true ↔
      ((dictLookup s.registry jid).isSome = true ∧
       dictLookup (remove_schedule s jid).1.armed jid = none ∧
       dictLookup (remove_schedule s jid).1.registry jid = none)) ∧
    (dictLookup s.registry jid = none →
      (remove_schedule s jid).2 = false ∧ (remove_schedule s jid).1 = s) := by
  by_cases h : dictMem s.armed jid = true
  · have hreg : dictMem s.registry jid = true := hinv jid h
    have hsome : (dictLookup s.registry jid).isSome = true := by
      rw [← dictMem_eq_isSome]; exact hreg
    constructor
    · simp [remove_schedule, h, hreg, hsome, dictLookup_dictRemove_self]
    · intro hnone
      rw [hnone] at hsome
      simp at hsome
  · have h' : dictMem s.armed jid = false := by
      cases hb : dictMem s.armed jid
      · rfl
      · exact absurd hb h
    constructor
    · constructor
      · intro hfalse
        simp [remove_schedule, h'] at hfalse
      · rintro ⟨hsome, _, hnone⟩
        have : (remove_schedule s jid).1 = s := by simp [remove_schedule, h']
        rw [this] at hnone
        rw [hnone] at hsome
        simp at hsome
    · intro _
      exact ⟨by simp [remove_schedule, h'], by simp [remove_schedule, h']⟩

/-- C6 witness: the statement evaluated on a state holding one armed and
persisted job, cancelled by its id. -/
theorem c6_witness :
    ((remove_schedule ⟨[("report_sales_20240101120000", Trigger.daily 8 0)],
        [("report_sales_20240101120000", data0)]⟩
        "report_sales_20240101120000").2 = true ↔
      ((dictLookup [("report_sales_20240101120000", data0)]
          "report_sales_20240101120000").isSome = true ∧
       dictLookup (remove_schedule
          ⟨[("report_sales_20240101120000", Trigger.daily 8 0)],
            [("report_sales_20240101120000", data0)]⟩
          "report_sales_20240101120000").1.armed
          "report_sales_20240101120000" = none ∧
       dictLookup (remove_schedule
          ⟨[("report_sales_20240101120000", Trigger.daily 8 0)],
            [("report_sales_20240101120000", data0)]⟩
          "report_sales_20240101120000").1.registry
          "report_sales_20240101120000" = none)) ∧
    (dictLookup [("report_sales_20240101120000", data0)]
        "report_sales_20240101120000" = none →
      (remove_schedule ⟨[("report_sales_20240101120000", Trigger.daily 8 0)],
          [("report_sales_20240101120000", data0)]⟩
          "report_sales_20240101120000").2 = false ∧
      (remove_schedule ⟨[("report_sales_20240101120000", Trigger.daily 8 0)],
          [("report_sales_20240101120000", data0)]⟩
          "report_sales_20240101120000").1 =
        ⟨[("report_sales_20240101120000", Trigger.daily 8 0)],
          [("report_sales_20240101120000", data0)]⟩) :=
  c6_cancel_schedule
    ⟨[("report_sales_20240101120000", Trigger.daily 8 0)],
      [("report_sales_20240101120000", data0)]⟩
    "report_sales_20240101120000"
    (by
      intro k hk
      simp [dictMem, dictKeys] at hk
      subst hk
      decide)

/-- C7: the claim states that job ids are globally unique across calls. The
id is the dataset name plus datetime.now() at one-second resolution, so two
calls for the same dataset within the same second produce the same id, the
second one silently replacing the first in both the scheduler
(replace_existing) and the registry (dict upsert): the claim is false on
the code. -/
theorem c7_counterexample :
    (schedule_report emptyState "sales" ecValid scDaily "20240101120000").2 =
      .ok "report_sales_20240101120000" ∧
    (schedule_report
        (schedule_report emptyState "sales" ecValid scDaily "20240101120000").1
        "sales" ecValid scDaily "20240101120000").2 =
      .ok "report_sales_20240101120000" ∧
    (schedule_report
        (schedule_report emptyState "sales" ecValid scDaily "20240101120000").1
        "sales" ecValid scDaily "20240101120000").1.registry.length = 1 := by
  refine ⟨by decide, by decide, by decide⟩

theorem string_append_cancel_left (a b c : String) (h : a ++ b = a ++ c) :
    b = c := by
  have hd : a.data ++ b.data = a.data ++ c.data := by
    have hdata := congrArg String.data h
    simpa using hdata
  have hbc : b.data = c.data := List.append_cancel_left hd
  cases b
  cases c
  exact congrArg String.mk hbc

/-- C7 (amended): two calls whose creation timestamps differ at one-second
granularity get distinct ids for the same dataset; uniqueness holds only up
to that granularity. -/
theorem c7_amended (ds t1 t2 : String) (h : t1 ≠ t2) :
    jobId ds t1 ≠ jobId ds t2 := by
  intro heq
  unfold jobId at heq
  exact h (string_append_cancel_left _ _ _ heq)

/-- C7 witness: ids one second apart differ. -/
theorem c7_witness :
    jobId "sales" "20240101120000" ≠ jobId "sales" "20240101120001" :=
  c7_amended "sales" "20240101120000" "20240101120001" (by decide)

theorem monthlySlot_clamps (d h mi y mo : Nat) :
    (monthlySlot d h mi y mo).year = y ∧
    (monthlySlot d h mi y mo).month = mo ∧
    (daysInMonth y mo < d → (monthlySlot d h mi y mo).day = daysInMonth y mo) ∧
    (mo = 2 → daysInMonth y 2 < d →
      (monthlySlot d h mi y mo).day = (if isLeapYear y then 29 else 28)) := by
  refine ⟨rfl, rfl, ?_, ?_⟩
  · intro hlt
    exact Nat.min_eq_right (Nat.le_of_lt hlt)
  · intro hmo hlt
    subst hmo
    have hmin : min d (daysInMonth y 2) = daysInMonth y 2 :=
      Nat.min_eq_right (Nat.le_of_lt hlt)
    simp only [monthlySlot]
    rw [hmin]
    simp [daysInMonth]

/-- C8: for every Monthly schedule and every instant, the computed fire
time never skips its target month — it stays in the current month when the
slot there has not yet passed and otherwise advances to exactly the next
month — and whenever that target month (the one the fire time lands in,
current or advanced-to) has fewer days than dayOfMonth, the trigger
resolves to the last valid day of that month; for a February target that
last day is 28, or 29 in a leap year. -/
theorem c8_monthly_clamps (d h mi : Nat) (after : DateTime) :
    (((nextFireMonthly d h mi after).year = after.year ∧
      (nextFireMonthly d h mi after).month = after.month) ∨
     ((nextFireMonthly d h mi after).year, (nextFireMonthly d h mi after).month) =
        nextMonth after.year after.month) ∧
    (daysInMonth (nextFireMonthly d h mi after).year
        (nextFireMonthly d h mi after).month < d →
      (nextFireMonthly d h mi after).day =
        daysInMonth (nextFireMonthly d h mi after).year
          (nextFireMonthly d h mi after).month) ∧
    ((nextFireMonthly d h mi after).month = 2 →
      daysInMonth (nextFireMonthly d h mi after).year 2 < d →
      (nextFireMonthly d h mi after).day =
        (if isLeapYear (nextFireMonthly d h mi after).year then 29 else 28)) := by
  have hcases : nextFireMonthly d h mi after =
        monthlySlot d h mi after.year after.month ∨
      nextFireMonthly d h mi after =
        monthlySlot d h mi (nextMonth after.year after.month).1
          (nextMonth after.year after.month).2 := by
    unfold nextFireMonthly
    by_cases hle : dtLE after (monthlySlot d h mi after.year after.month) = true
    · left
      simp [hle]
    · right
      simp [hle]
  rcases hcases with hf | hf
  · obtain ⟨hy, hm, hclamp, hfeb⟩ := monthlySlot_clamps d h mi after.year after.month
    rw [hf, hy, hm]
    exact ⟨Or.inl ⟨rfl, rfl⟩, hclamp, hfeb⟩
  · obtain ⟨hy, hm, hclamp, hfeb⟩ := monthlySlot_clamps d h mi
      (nextMonth after.year after.month).1 (nextMonth after.year after.month).2
    rw [hf, hy, hm]
    exact ⟨Or.inr rfl, hclamp, hfeb⟩

/-- C8 witness: Monthly day 31 evaluated from February 1st of the leap year
2024 fires on February 29; evaluated from January 31st 09:00 of 2023, past
that day's 08:00 slot, it advances into February and fires on the 28th;
evaluated from April 1st it fires on April 30. -/
theorem c8_witness :
    (nextFireMonthly 31 8 0 ⟨2024, 2, 1, 0, 0⟩).day = 29 ∧
    (nextFireMonthly 31 8 0 ⟨2023, 1, 31, 9, 0⟩).month = 2 ∧
    (nextFireMonthly 31 8 0 ⟨2023, 1, 31, 9, 0⟩).day = 28 ∧
    (nextFireMonthly 31 8 0 ⟨2023, 4, 1, 0, 0⟩).day = 30 := by
  refine ⟨?_, ?_, ?_, ?_⟩
  · rw [(c8_monthly_clamps 31 8 0 ⟨2024, 2, 1, 0, 0⟩).2.2 (by decide) (by decide)]
    decide
  · rcases (c8_monthly_clamps 31 8 0 ⟨2023, 1, 31, 9, 0⟩).1 with ⟨_, hm⟩ | hm
    · exact absurd hm (by decide)
    · have := congrArg Prod.snd hm
      simpa [nextMonth] using this
  · rw [(c8_monthly_clamps 31 8 0 ⟨2023, 1, 31, 9, 0⟩).2.2 (by decide) (by decide)]
    decide
  · rw [(c8_monthly_clamps 31 8 0 ⟨2023, 4, 1, 0, 0⟩).2.1 (by decide)]
    decide

/-- Email configuration identical to ecValid except for the password. -/
def ecOtherPass : EmailConfig := { ecValid with sender_password := some "secretB" }

/-- C9: the claim states that the persisted registry never contains the raw
sender credential and that snapshots for configs differing only in the
password coincide. save_schedule writes the whole email_config dict,
password included, so the two snapshots differ and the cleartext password
is readable from the persisted entry: the claim is false on the code. -/
theorem c9_counterexample :
    save_schedule [] "j1" "sales" ecValid scDaily ≠
      save_schedule [] "j1" "sales" ecOtherPass scDaily ∧
    (dictLookup (save_schedule [] "j1" "sales" ecValid scDaily) "j1").map
        (fun entry => entry.email_config.sender_password) =
      some (some "secretA") := by
  refine ⟨by decide, by decide⟩

/-- C9 (amended): the persisted entry for a job carries the full delivery
configuration, raw sender credential included, and every field round-trips
losslessly; consequently two snapshots written from configs differing only
in the password differ. -/
theorem c9_amended (m : List (String × ScheduleData)) (jid ds : String)
    (ec1 ec2 : EmailConfig) (sc : ScheduleConfig)
    (hne : ec1.sender_password ≠ ec2.sender_password) :
    dictLookup (save_schedule m jid ds ec1 sc) jid = some ⟨jid, ds, ec1, sc⟩ ∧
    save_schedule m jid ds ec1 sc ≠ save_schedule m jid ds ec2 sc := by
  refine ⟨dictLookup_dictInsert_self .., ?_⟩
  intro he
  have h1 : dictLookup (save_schedule m jid ds ec1 sc) jid =
      some ⟨jid, ds, ec1, sc⟩ := dictLookup_dictInsert_self ..
  have h2 : dictLookup (save_schedule m jid ds ec2 sc) jid =
      some ⟨jid, ds, ec2, sc⟩ := dictLookup_dictInsert_self ..
  rw [he, h2] at h1
  have : ec2 = ec1 := congrArg ScheduleData.email_config (Option.some.inj h1)
  exact hne (this ▸ rfl)

/-- C9 witness: the amended statement evaluated on the two concrete configs
differing only in the password. -/
theorem c9_witness :
    dictLookup (save_schedule [] "j2" "sales" ecValid scDaily) "j2" =
      some ⟨"j2", "sales", ecValid, scDaily⟩ ∧
    save_schedule [] "j2" "sales" ecValid scDaily ≠
      save_schedule [] "j2" "sales" ecOtherPass scDaily :=
  c9_amended [] "j2" "sales" ecValid ecOtherPass scDaily (by decide)

/-- C10: writing one job with save_schedule only inserts or replaces that
job id: lookups of every other id are unchanged, the sub-list of entries
with other ids is unchanged entry for entry and in order (so their whole-
file JSON rendering is byte-for-byte identical), and the written id now
maps to the written entry. -/
theorem c10_save_schedule_frame (m : List (String × ScheduleData))
    (jid ds : String) (ec : EmailConfig) (sc : ScheduleConfig) (k : String)
    (hk : k ≠ jid) :
    dictLookup (save_schedule m jid ds ec sc) k = dictLookup m k ∧
    dictRemove (save_schedule m jid ds ec sc) jid = dictRemove m jid ∧
    dictLookup (save_schedule m jid ds ec sc) jid = some ⟨jid, ds, ec, sc⟩ :=
  ⟨dictLookup_dictInsert_ne m jid ⟨jid, ds, ec, sc⟩ k hk,
   dictRemove_dictInsert .., dictLookup_dictInsert_self ..⟩

/-- C10 witness: the frame property evaluated on a registry holding another
job while j1 is rewritten. -/
theorem c10_witness :
    dictLookup (save_schedule [("other", data0)] "j1" "sales" ecValid scDaily)
        "other" = dictLookup [("other", data0)] "other" ∧
    dictRemove (save_schedule [("other", data0)] "j1" "sales" ecValid scDaily)
        "j1" = dictRemove [("other", data0)] "j1" ∧
    dictLookup (save_schedule [("other", data0)] "j1" "sales" ecValid scDaily)
        "j1" = some ⟨"j1", "sales", ecValid, scDaily⟩ :=
  c10_save_schedule_frame [("other", data0)] "j1" "sales" ecValid scDaily
    "other" (by decide)

end TableauReporter
